import Mathlib

/-!
# Verification of the Heteras Discord bot (src/main.py)

Shallow embedding of the parts of `main.py` that the specification's
testable properties talk about:

* the duration-string parsing duplicated inside `mute` (lines 426-434)
  and `remindme` (lines 534-542);
* the `clear` message-purge amount logic (lines 474-486);
* the `info` PC-part lookup with its substring/alias matching
  (lines 275-310), including Python's locale-independent `str.upper`
  restricted to the code points this program actually compares;
* the per-guild welcome-configuration store (`welcome_configs` dict,
  written by `setwelcome`, read by `showwelcome`);
* the `addquote` state transition on the global `quotes` list;
* the image-classification pipeline `preprocess_image` / `predict_image`
  (lines 216-234), with the byte decoder (`PIL.Image.open`), the resize
  resampler and the model forward pass (`model.predict`) abstracted as
  parameters, pixel values carried as `Fin 256` (uint8) and float
  arithmetic modelled over `ℝ`.

Python exceptions are modelled as `Option`/sum-type failure values; the
`try/except` wrappers become the corresponding `match` branches.
-/

namespace Heteras

/-! ## Python `int(str)` on ASCII input

`int(duration[:-1])` strips surrounding whitespace, accepts an optional
sign, then a non-empty digit run where single underscores may separate
digits (`int("1_0") = 10`, `int("1__0")` and `int("1_")` raise
`ValueError`).  Restricted to ASCII digits/whitespace, which is all this
program's inputs use. -/

def isAsciiDigit (c : Char) : Bool := decide ('0' ≤ c) && decide (c ≤ '9')

def digitVal (c : Char) : Nat := c.toNat - '0'.toNat

/-- Tail of Python's digit grammar `digit (["_"] digit)*`, after the
first digit has been consumed. -/
def digitTail : List Char → Bool
  | [] => true
  | '_' :: c :: rest => isAsciiDigit c && digitTail rest
  | c :: rest => isAsciiDigit c && digitTail rest

/-- A non-empty digit run in Python's `int` grammar. -/
def digitRun : List Char → Bool
  | [] => false
  | c :: rest => isAsciiDigit c && digitTail rest

/-- Numeric value of a digit run, skipping grouping underscores. -/
def digitsToNat (l : List Char) : Nat :=
  l.foldl (fun acc c => if c = '_' then acc else acc * 10 + digitVal c) 0

def isPyWhitespace (c : Char) : Bool :=
  c = ' ' || c = '\t' || c = '\n' || c = '\r' || c.toNat = 11 || c.toNat = 12

/-- Strip whitespace from both ends. -/
def stripWs (l : List Char) : List Char :=
  ((l.dropWhile isPyWhitespace).reverse.dropWhile isPyWhitespace).reverse

/-- Python `int : str → int`; `none` models a raised `ValueError`. -/
def pyInt (l : List Char) : Option Int :=
  match stripWs l with
  | '+' :: rest => if digitRun rest then some (Int.ofNat (digitsToNat rest)) else none
  | '-' :: rest => if digitRun rest then some (-Int.ofNat (digitsToNat rest)) else none
  | rest => if digitRun rest then some (Int.ofNat (digitsToNat rest)) else none

/-! ## Duration parsing (`mute` lines 426-434, `remindme` lines 534-542)

Both commands contain the verbatim snippet

```
time_units = \x7b's': 1, 'm': 60, 'h': 3600, 'd': 86400\x7d
unit = duration[-1].lower()
try:
    amount = int(duration[:-1])
    seconds = amount * time_units.get(unit, 0)
    if seconds == 0:
        raise ValueError
except (ValueError, KeyError):
    await ctx.send("Invalid duration format. ...")
    return
```

`duration[-1]` sits outside the `try`, so on the empty string it raises
an uncaught `IndexError` (outcome `indexError` below); a caught
`ValueError` is the "Invalid duration format" reply (`invalidFormat`). -/

/-- The `time_units` dict; `none` models a missing key. -/
def time_units (c : Char) : Option Int :=
  if c = 's' then some 1
  else if c = 'm' then some 60
  else if c = 'h' then some 3600
  else if c = 'd' then some 86400
  else none

inductive DurationOutcome where
  | ok (seconds : Int)
  | invalidFormat
  | indexError
deriving DecidableEq

/-- The duration computation embedded in `mute` (main.py lines 426-434).
Python's `str.lower` on the unit character is modelled by ASCII
`Char.toLower`; a non-ASCII unit character is not in `time_units` either
way, so the outcome agrees. -/
def muteParseDuration (s : String) : DurationOutcome :=
  match s.toList.getLast? with
  | none => DurationOutcome.indexError
  | some u =>
    match pyInt s.toList.dropLast with
    | none => DurationOutcome.invalidFormat
    | some amount =>
      let seconds := amount * ((time_units u.toLower).getD 0)
      if seconds = 0 then DurationOutcome.invalidFormat else DurationOutcome.ok seconds

/-- The duration computation embedded in `remindme` (main.py lines
534-542); the source snippet is a verbatim duplicate of the one in
`mute`. -/
def remindmeParseDuration (s : String) : DurationOutcome :=
  match s.toList.getLast? with
  | none => DurationOutcome.indexError
  | some u =>
    match pyInt s.toList.dropLast with
    | none => DurationOutcome.invalidFormat
    | some amount =>
      let seconds := amount * ((time_units u.toLower).getD 0)
      if seconds = 0 then DurationOutcome.invalidFormat else DurationOutcome.ok seconds

/-! ## `clear` (main.py lines 474-486)

```
if amount <= 0:
    await ctx.send("Please enter a positive number.")
    return
if amount > 100:
    await ctx.send("You can only delete up to 100 messages at a time.")
    amount = 100
await ctx.channel.purge(limit=amount + 1)
```

Modelled as the purge limit the command issues: `none` means the command
returns before any deletion; `some l` means `purge(limit = l)` runs,
deleting at most `l` messages including the invoking command message. -/

def clearPurgeLimit (amount : Int) : Option Int :=
  if amount ≤ 0 then none
  else
    let amount := if amount > 100 then 100 else amount
    some (amount + 1)

/-! ## `info` (main.py lines 275-310)

Python `str.upper()` restricted to the code points this program
compares: ASCII letters are upcased, the Turkish lowercase letters that
appear in inputs are mapped to their Unicode uppercase forms, and every
other relevant code point is a fixed point.  Crucially, as in Python
(which uses the locale-independent Unicode default mapping), lowercase
`i` (U+0069) maps to ASCII `I` (U+0049), NOT to dotted capital `İ`
(U+0130), while `İ` itself is a fixed point. -/

def pyUpper (c : Char) : Char :=
  if c = 'ş' then 'Ş'
  else if c = 'ğ' then 'Ğ'
  else if c = 'ı' then 'I'
  else if c = 'ç' then 'Ç'
  else if c = 'ö' then 'Ö'
  else if c = 'ü' then 'Ü'
  else c.toUpper

/-- Python `part_name.upper()` applied character-wise. -/
def upperStr (s : String) : String := String.mk (s.toList.map pyUpper)

/-- Auxiliary for substring search: the first list starts the second. -/
def leadsWith : List Char → List Char → Bool
  | [], _ => true
  | _ :: _, [] => false
  | a :: as, b :: bs => a = b && leadsWith as bs

/-- Python substring containment `needle in hay` on char lists. -/
def occursIn (needle : List Char) : List Char → Bool
  | [] => leadsWith needle []
  | c :: t => leadsWith needle (c :: t) || occursIn needle t

/-- Python `needle in hay` for strings. -/
def strIn (needle hay : String) : Bool := occursIn needle.toList hay.toList

/-- The `PC_PART_INFO_EN` value for the key "CPU". -/
def cpuText : String :=
  "**CPU, stands for Central Processing Unit.**\nAlso known as the **brain** of the computer, this unit is the hardware component that performs the fundamental computational operations in a computer system.\nThe CPU processes instructions, handles data, and ensures all other components of the computer work in a coordinated manner."

/-- The `PC_PART_INFO_EN` value for the key "GPU". -/
def gpuText : String :=
  "**GPU, stands for Graphics Processing Unit.**\nIt\u0027s specifically designed for graphics and visual computations. It\u0027s used in graphics-intensive tasks like gaming, video editing, and 3D modeling.\nIt rapidly processes images, allowing you to see them on your screen."

/-- The `PC_PART_INFO_EN` value for the key "RAM". -/
def ramText : String :=
  "**RAM, stands for Random Access Memory.**\nIt\u0027s a fast type of memory that temporarily stores data the computer is actively using.\nIt enables applications to run quickly and allows for multitasking. Data stored in RAM is erased when the computer is turned off."

/-- The `PC_PART_INFO_EN` value for the key "MOTHERBOARD". -/
def motherboardText : String :=
  "**Motherboard, is the main circuit board that connects all the essential components of a computer.**\nIt enables communication between the CPU, RAM, GPU, storage devices, and other peripherals.\nIt\u0027s like the backbone of the computer."

/-- The `PC_PART_INFO_EN` value for the key "SATA SSD". -/
def sataSsdText : String :=
  "**SATA SSD, stands for Solid State Drive using the Serial ATA interface.**\nIt offers much faster data read/write speeds compared to traditional HDDs and is more durable because it has no moving parts.\nIt\u0027s commonly used as a storage solution in most desktop and laptop computers."

/-- The `PC_PART_INFO_EN` value for the key "NVME SSD". -/
def nvmeSsdText : String :=
  "**NVMe SSD, stands for Non-Volatile Memory Express interface using a Solid State Drive.**\nIt offers significantly higher speeds than SATA SSDs because it plugs directly into PCIe slots, allowing for faster communication with the motherboard.\nIt\u0027s ideal for high-performance applications and games."

/-- The `PC_PART_INFO_EN` value for the key "HDD". -/
def hddText : String :=
  "**HDD, stands for Hard Disk Drive.**\nIt\u0027s a traditional storage device that stores data on magnetic platters. It offers high capacities at an affordable cost.\nIt\u0027s slower than SSDs and more susceptible to shocks due to its moving parts."

/-- The `PC_PART_INFO_EN` value for the key "PSU". -/
def psuText : String :=
  "**PSU, stands for Power Supply Unit.**\nIt\u0027s the hardware component that provides the correct voltage and amount of electrical power to all components of the computer.\nIt\u0027s vital for the stable operation of the computer."

/-- The `PC_PART_INFO_EN` value for the key "AIR COOLING". -/
def airCoolingText : String :=
  "**Air Cooling, is a cooling method that uses airflow to dissipate heat from computer components, especially the CPU.**\nIt typically includes a heatsink and one or more fans. It transfers heat from the component to the air."

/-- The `PC_PART_INFO_EN` dict (main.py lines 43-88) as a lookup
function; `none` models a missing key (`dict.get` returning `None`). -/
def PC_PART_INFO_EN (key : String) : Option String :=
  if key = "CPU" then some cpuText
  else if key = "GPU" then some gpuText
  else if key = "RAM" then some ramText
  else if key = "MOTHERBOARD" then some motherboardText
  else if key = "SATA SSD" then some sataSsdText
  else if key = "NVME SSD" then some nvmeSsdText
  else if key = "HDD" then some hddText
  else if key = "PSU" then some psuText
  else if key = "AIR COOLING" then some airCoolingText
  else none

/-- The not-found reply of `info` (main.py lines 306-310). -/
def notFoundText (part_name : String) : String :=
  "Sorry, couldn\u0027t find info about **" ++ part_name ++
    "**. Parts I can provide info about for now: CPU, GPU, RAM, Motherboard, SATA SSD, NVMe SSD, HDD, PSU, Air Cooling. Please try to use the parts listed above."

/-- The `info` command body (main.py lines 275-310): uppercase the
input, try the alias/substring rules in source order, then look the
resulting key up in `PC_PART_INFO_EN`. -/
def infoReply (part_name : String) : String :=
  let part_name_upper := upperStr part_name
  let requested_part :=
    if strIn "AIR COOLING" part_name_upper || strIn "HAVA SOĞUTMA" part_name_upper then "AIR COOLING"
    else if strIn "SATA SSD" part_name_upper then "SATA SSD"
    else if strIn "NVME SSD" part_name_upper then "NVME SSD"
    else if strIn "HDD" part_name_upper then "HDD"
    else if strIn "PSU" part_name_upper then "PSU"
    else if strIn "RAM" part_name_upper then "RAM"
    else if strIn "GPU" part_name_upper || strIn "EKRAN KARTI" part_name_upper then "GPU"
    else if strIn "CPU" part_name_upper || strIn "İŞLEMCİ" part_name_upper then "CPU"
    else if strIn "MOTHERBOARD" part_name_upper || strIn "ANAKART" part_name_upper then "MOTHERBOARD"
    else part_name_upper
  match PC_PART_INFO_EN requested_part with
  | some msg => msg
  | none => notFoundText part_name

/-! ## Welcome config store (`welcome_configs` dict, lines 114, 314-320, 352-363)

The dict `welcome_configs : \x7bguild_id: \x7b'channel_id': int, 'message': str\x7d\x7d`
is modelled as a function from guild ids to optional configs; Python
`d[g] = v` becomes a pointwise update and `g in d` / `d[g]` becomes
lookup. -/

structure GuildConfig where
  channel_id : Nat
  message : String
deriving DecidableEq

def WelcomeConfigs : Type := Nat → Option GuildConfig

/-- `welcome_configs = \x7b\x7d` at process start (line 114). -/
def emptyConfigs : WelcomeConfigs := fun _ => none

/-- `setwelcome` line 318:
`welcome_configs[ctx.guild.id] = \x7b'channel_id': channel.id, 'message': message\x7d`. -/
def setwelcome (configs : WelcomeConfigs) (guild_id channel_id : Nat)
    (message : String) : WelcomeConfigs :=
  fun g => if g = guild_id then some { channel_id := channel_id, message := message }
           else configs g

/-- `showwelcome` lines 355-363: `welcome_configs[ctx.guild.id]` when
`ctx.guild.id in welcome_configs`, absent otherwise. -/
def showwelcome (configs : WelcomeConfigs) (guild_id : Nat) : Option GuildConfig :=
  configs guild_id

/-! ## `addquote` (main.py lines 565-595)

The command reads the global `quotes` list and possibly appends one
string.  Inputs: whether the invoking message is a reply (and what
`ctx.channel.fetch_message` does for it — succeeds with the replied
message's content and author display name, raises `discord.NotFound`,
or raises some other exception), the optional `message_content`
argument, and the invoking author's display name.  Output: the new
`quotes` list plus the reply sent (`none` = no message sent). -/

inductive FetchOutcome where
  | found (content : String) (authorName : String)
  | notFound
  | err (msg : String)
deriving DecidableEq

/-- The `addquote` command body. `reference = none` models a message
with no reply reference (or one without a `message_id`); Python
truthiness of strings (`if not quote_text`, `elif message_content`)
is the emptiness test. -/
def addquote (reference : Option FetchOutcome) (message_content : Option String)
    (ctxAuthorName : String) (quotes : List String) :
    List String × Option String :=
  match reference with
  | some (FetchOutcome.found content author) =>
    if content = "" then
      (quotes, some "The replied message contains no text content.")
    else
      let quote_text := content ++ " - " ++ author
      if quote_text = "" then (quotes, none)
      else (quotes ++ [quote_text], some "Quote successfully added!")
  | some FetchOutcome.notFound =>
    (quotes, some "The replied message was not found.")
  | some (FetchOutcome.err e) =>
    (quotes, some ("An error occurred while fetching the replied message: " ++ e))
  | none =>
    match message_content with
    | some mc =>
      if mc = "" then
        (quotes, some "Please reply to a message or provide text to add a quote. Example: `$addquote This was hilarious!`")
      else
        let quote_text := mc ++ " - " ++ ctxAuthorName
        if quote_text = "" then (quotes, none)
        else (quotes ++ [quote_text], some "Quote successfully added!")
    | none =>
      (quotes, some "Please reply to a message or provide text to add a quote. Example: `$addquote This was hilarious!`")

/-! ## Image classification pipeline (main.py lines 216-234)

```
def preprocess_image(image_bytes, target_size):
    img = Image.open(io.BytesIO(image_bytes)).resize(target_size)
    img_array = keras.utils.img_to_array(img)
    img_array = np.expand_dims(img_array, axis=0)
    return img_array / 255.0

async def predict_image(image_bytes):
    try:
        img_array = preprocess_image(image_bytes, (model.input_shape[1], model.input_shape[2]))
        predictions = model.predict(img_array)
        decoded_predictions = tf.nn.softmax(predictions).numpy()
        top_prediction_index = np.argmax(decoded_predictions[0])
        confidence = decoded_predictions[0][top_prediction_index]
        predicted_label = labels[top_prediction_index]
        return predicted_label, confidence
    except Exception as e:
        return None, None
```

The external library calls are abstracted as parameters of a
`PipelineEnv`; float arithmetic is modelled over `ℝ`; uint8 pixel data
is `Fin 256`. -/

/-- A decoded PIL image: pixel dimensions, channel count (1 for mode L,
3 for RGB, 4 for RGBA — `Image.open` preserves the source's mode, and
nothing in `preprocess_image` converts it), and uint8 pixel data
(`Fin 256` is the byte range), accessed as `pixel y x ch`. -/
structure PILImage where
  width : Nat
  height : Nat
  channels : Nat
  pixel : Nat → Nat → Nat → Fin 256

/-- A rank-3 numpy float array (`img_to_array` output): `dims` is
`(height, width, channels)`; `val` is a total function, entries outside
`dims` are irrelevant junk. -/
structure NpArray3 where
  dims : Nat × Nat × Nat
  val : Nat → Nat → Nat → ℝ

/-- A rank-4 float tensor (after `np.expand_dims(_, axis=0)`). -/
structure Tensor4 where
  dims : Nat × Nat × Nat × Nat
  val : Nat → Nat → Nat → Nat → ℝ

/-- The external functions the pipeline calls, abstracted. `decode`
models `Image.open(io.BytesIO(image_bytes))` together with any failure
of the subsequent `resize` call (`none` = a decode/resize exception);
`resample` is the uint8 pixel data `PIL`'s resampling filter produces
for a successful resize to the given width and height; `input1` and
`input2` are `model.input_shape[1]` and `model.input_shape[2]`;
`forward` is `model.predict` on the batched tensor, returning the raw
score row for the single batch entry, with `n` the model's output
width (`none` = an inference exception). -/
structure PipelineEnv (n : Nat) where
  decode : List UInt8 → Option PILImage
  resample : PILImage → Nat → Nat → (Nat → Nat → Nat → Fin 256)
  input1 : Nat
  input2 : Nat
  forward : Tensor4 → Option (Fin n → ℝ)

/-- `PIL.Image.Image.resize(size)` with `size = (width, height)`: the
result has exactly the requested width and height, the same mode (hence
the same channel count), and uint8 pixel data from the resampling
filter — a direct stretch, no aspect-ratio preservation. -/
def pilResize {n : Nat} (env : PipelineEnv n) (img : PILImage) (size : Nat × Nat) :
    PILImage :=
  { width := size.1, height := size.2, channels := img.channels,
    pixel := env.resample img size.1 size.2 }

/-- `keras.utils.img_to_array`: the float array of shape
`(height, width, channels)` whose entries are the image's pixel bytes
as floats in [0, 255] (a 2-D grayscale array is reshaped to
`(h, w, 1)`, which the uniform `channels` field already covers). -/
def img_to_array (img : PILImage) : NpArray3 :=
  { dims := (img.height, img.width, img.channels),
    val := fun y x ch => ((img.pixel y x ch : Nat) : ℝ) }

/-- `np.expand_dims(a, axis=0)`: prepend a batch axis of size 1. -/
def expand_dims0 (a : NpArray3) : Tensor4 :=
  { dims := (1, a.dims.1, a.dims.2.1, a.dims.2.2),
    val := fun _ y x ch => a.val y x ch }

/-- Elementwise division of a tensor by a scalar (`img_array / 255.0`). -/
noncomputable def tensorDiv (t : Tensor4) (r : ℝ) : Tensor4 :=
  { dims := t.dims, val := fun i y x ch => t.val i y x ch / r }

/-- The body of `preprocess_image` after a successful decode. -/
noncomputable def preprocessSteps {n : Nat} (env : PipelineEnv n) (target_size : Nat × Nat)
    (img : PILImage) : Tensor4 :=
  tensorDiv (expand_dims0 (img_to_array (pilResize env img target_size))) 255

/-- `preprocess_image(image_bytes, target_size)` (main.py lines
216-220); `none` models the decode/resize exception propagating to the
caller. -/
noncomputable def preprocess_image {n : Nat} (env : PipelineEnv n)
    (image_bytes : List UInt8) (target_size : Nat × Nat) : Option Tensor4 :=
  (env.decode image_bytes).map (preprocessSteps env target_size)

/-- `tf.nn.softmax` along the class axis, in exact real arithmetic. -/
noncomputable def tf_softmax {n : Nat} (x : Fin n → ℝ) : Fin n → ℝ :=
  fun i => Real.exp (x i) / ∑ j, Real.exp (x j)

/-- One step of `np.argmax`-style scanning: keep the current best
index, replacing it only on a strictly larger value, so the first
maximal index wins — the tie-breaking `np.argmax` documents. -/
noncomputable def argmaxStep {n : Nat} (v : Fin n → ℝ) (acc : Option (Fin n))
    (i : Fin n) : Option (Fin n) :=
  match acc with
  | none => some i
  | some j => if v j < v i then some i else some j

/-- `np.argmax` over the class axis: the first index attaining the
maximum; `none` on an empty axis, where numpy raises `ValueError`. -/
noncomputable def np_argmax {n : Nat} (v : Fin n → ℝ) : Option (Fin n) :=
  (List.finRange n).foldl (argmaxStep v) none

/-- `predict_image(image_bytes)` (main.py lines 222-234): preprocess at
the model's input resolution, run the forward pass, softmax the raw
scores, take the first maximal index as label index and the probability
there as confidence; every failure — decode/resize exception, inference
exception, empty class axis, label index out of the label list's range —
is caught by the `except Exception` clause and becomes `(None, None)`. -/
noncomputable def predict_image {n : Nat} (env : PipelineEnv n) (labels : List String)
    (image_bytes : List UInt8) : Option String × Option ℝ :=
  match preprocess_image env image_bytes (env.input1, env.input2) with
  | none => (none, none)
  | some img_array =>
    match env.forward img_array with
    | none => (none, none)
    | some predictions =>
      let decoded_predictions := tf_softmax predictions
      match np_argmax decoded_predictions with
      | none => (none, none)
      | some top_prediction_index =>
        if h : top_prediction_index.val < labels.length then
          (some (labels.get ⟨top_prediction_index.val, h⟩),
           some (decoded_predictions top_prediction_index))
        else (none, none)

end Heteras

namespace Heteras

/-- C4. The duration parsing used by `mute` and `remindme` maps
"10m" to 600, "2h" to 7200, "1d" to 86400 seconds, and reports the
invalid-format message for "0m" (zero result), "abc" (non-numeric
prefix) and "10x" (unknown unit, which makes the product zero). -/
theorem duration_examples :
    muteParseDuration "10m" = DurationOutcome.ok 600 ∧
    muteParseDuration "2h" = DurationOutcome.ok 7200 ∧
    muteParseDuration "1d" = DurationOutcome.ok 86400 ∧
    muteParseDuration "0m" = DurationOutcome.invalidFormat ∧
    muteParseDuration "abc" = DurationOutcome.invalidFormat ∧
    muteParseDuration "10x" = DurationOutcome.invalidFormat ∧
    remindmeParseDuration "10m" = DurationOutcome.ok 600 ∧
    remindmeParseDuration "2h" = DurationOutcome.ok 7200 ∧
    remindmeParseDuration "1d" = DurationOutcome.ok 86400 ∧
    remindmeParseDuration "0m" = DurationOutcome.invalidFormat ∧
    remindmeParseDuration "abc" = DurationOutcome.invalidFormat ∧
    remindmeParseDuration "10x" = DurationOutcome.invalidFormat := by
  decide

/-- Every value stored in the `time_units` dict is positive. -/
theorem time_units_pos (c : Char) (k : Int) (h : time_units c = some k) : 0 < k := by
  unfold time_units at h
  split_ifs at h <;> simp_all <;> omega

/-- C5 counterexample. The claim says a negative numeric prefix is
rejected with the invalid-format response, but on "-5m" both embedded
parsers succeed with -300 seconds: the code only rejects a zero result
(`if seconds == 0`), never a negative one. -/
theorem duration_negative_cex :
    muteParseDuration "-5m" = DurationOutcome.ok (-300) ∧
    remindmeParseDuration "-5m" = DurationOutcome.ok (-300) ∧
    muteParseDuration "-5m" ≠ DurationOutcome.invalidFormat := by
  decide

/-- C5 amended. For every duration string whose last character
(lowercased) is a recognized unit and whose prefix parses as a negative
integer, the parsing embedded in `mute` and in `remindme` does NOT fail:
it succeeds with the (negative) product of the prefix and the unit's
second count. -/
theorem duration_negative_accepted (s : String) (u : Char) (a k : Int)
    (hu : s.toList.getLast? = some u)
    (hk : time_units u.toLower = some k)
    (hp : pyInt s.toList.dropLast = some a)
    (ha : a < 0) :
    muteParseDuration s = DurationOutcome.ok (a * k) ∧ a * k < 0 ∧
    remindmeParseDuration s = DurationOutcome.ok (a * k) := by
  have hkpos : 0 < k := time_units_pos u.toLower k hk
  have hneg : a * k < 0 := mul_neg_of_neg_of_pos ha hkpos
  refine ⟨?_, hneg, ?_⟩ <;>
    simp only [muteParseDuration, remindmeParseDuration, hu, hp, hk,
      Option.getD_some] <;>
    rw [if_neg (ne_of_lt hneg)]

/-- Witness for `duration_negative_accepted` at the concrete input
"-5m". -/
theorem duration_negative_accepted_witness :
    muteParseDuration "-5m" = DurationOutcome.ok ((-5) * 60) ∧
    ((-5 : Int)) * 60 < 0 ∧
    remindmeParseDuration "-5m" = DurationOutcome.ok ((-5) * 60) :=
  duration_negative_accepted "-5m" 'm' (-5) 60 (by decide) (by decide)
    (by decide) (by decide)

/-- C7. For every integer amount given to `clear`: amounts above 100 are
capped, so the purge limit issued is 100 + 1 (up to 100 messages plus
the invoking command message), and non-positive amounts issue no purge
at all. -/
theorem clear_cap_and_nonpositive :
    (∀ amount : Int, 100 < amount → clearPurgeLimit amount = some (100 + 1)) ∧
    (∀ amount : Int, amount ≤ 0 → clearPurgeLimit amount = none) := by
  constructor
  · intro amount h
    have h0 : ¬ amount ≤ 0 := by omega
    simp [clearPurgeLimit, h0, h]
  · intro amount h
    simp [clearPurgeLimit, h]

/-- Witness for `clear_cap_and_nonpositive` at amounts 150 and 0. -/
theorem clear_cap_and_nonpositive_witness :
    clearPurgeLimit 150 = some (100 + 1) ∧ clearPurgeLimit 0 = none :=
  ⟨clear_cap_and_nonpositive.1 150 (by decide),
   clear_cap_and_nonpositive.2 0 (by decide)⟩

/-- C6. The welcome config store: a `setwelcome` immediately followed by
a `showwelcome` for the same guild returns exactly the stored pair;
lookup on the initial store (and on any guild never written, since
writes to other guilds do not disturb it) is absent; and a second
`setwelcome` for the same guild completely overwrites the first. -/
theorem welcome_store_ops :
    (∀ (σ : WelcomeConfigs) (g c : Nat) (t : String),
      showwelcome (setwelcome σ g c t) g = some { channel_id := c, message := t }) ∧
    (∀ g : Nat, showwelcome emptyConfigs g = none) ∧
    (∀ (σ : WelcomeConfigs) (g g' c : Nat) (t : String), g ≠ g' →
      showwelcome (setwelcome σ g' c t) g = showwelcome σ g) ∧
    (∀ (σ : WelcomeConfigs) (g c c' : Nat) (t t' : String),
      showwelcome (setwelcome (setwelcome σ g c t) g c' t') g =
        some { channel_id := c', message := t' }) := by
  refine ⟨fun σ g c t => ?_, fun g => rfl, fun σ g g' c t h => ?_, fun σ g c c' t t' => ?_⟩
  · simp [showwelcome, setwelcome]
  · simp [showwelcome, setwelcome, h]
  · simp [showwelcome, setwelcome]

/-- Witness for `welcome_store_ops` at concrete guilds 1 and 2. -/
theorem welcome_store_ops_witness :
    showwelcome (setwelcome emptyConfigs 1 7 "hi") 1 = some { channel_id := 7, message := "hi" } ∧
    showwelcome emptyConfigs 1 = none ∧
    showwelcome (setwelcome emptyConfigs 2 7 "hi") 1 = showwelcome emptyConfigs 1 ∧
    showwelcome (setwelcome (setwelcome emptyConfigs 1 7 "hi") 1 8 "yo") 1 =
      some { channel_id := 8, message := "yo" } :=
  ⟨welcome_store_ops.1 emptyConfigs 1 7 "hi",
   welcome_store_ops.2.1 1,
   welcome_store_ops.2.2.1 emptyConfigs 1 2 7 "hi" (by decide),
   welcome_store_ops.2.2.2 emptyConfigs 1 7 8 "hi" "yo"⟩

/-- C8. Evaluation of `info` at the claim's inputs. `info("cpu")`
resolves to the CPU description and `info("toaster")` returns the
not-found message listing the 9 categories, as claimed — but
`info("İşlemci")` does NOT resolve to the CPU description: Python's
`upper()` turns the final `i` into ASCII `I`, giving "İŞLEMCI", which
does not contain the alias literal "İŞLEMCİ" (final dotted capital İ,
U+0130); the not-found message is returned instead. The alias only
fires on input already containing the exact uppercase form "İŞLEMCİ".
This contradicts the evident intent of the alias (the other Turkish
aliases ANAKART, EKRAN KARTI and HAVA SOĞUTMA all match their lowercase
forms), so it is a code bug, not a spec error. -/
theorem info_islemci_alias_bug :
    infoReply "cpu" = cpuText ∧
    infoReply "toaster" = notFoundText "toaster" ∧
    infoReply "İşlemci" = notFoundText "İşlemci" ∧
    infoReply "İşlemci" ≠ cpuText ∧
    infoReply "İŞLEMCİ" = cpuText := by
  refine ⟨rfl, rfl, rfl, ?_, rfl⟩
  decide

/-- C9. The duration-string-to-seconds computations embedded in
`mute` and `remindme` are extensionally equal: on every input string
they produce the same outcome (same second count, or the same failure).
The two source snippets are verbatim duplicates, so the embeddings are
definitionally equal. -/
theorem mute_remindme_duration_agree (s : String) :
    muteParseDuration s = remindmeParseDuration s := rfl

/-- A quote of the form `text ++ " - " ++ author` is never the empty
string (so the final `if quote_text:` guard in `addquote` always passes
on the success branches). -/
theorem append_sep_ne_empty (a b : String) : a ++ " - " ++ b ≠ "" := by
  intro h
  have hl := congrArg String.length h
  simp [String.length_append] at hl
  exact absurd hl.1.2 (by decide)

/-- C10. `addquote` is atomic with respect to the quote store. First
conjunct: every execution either leaves the quotes list unchanged or
appends exactly one element of the form `text ++ " - " ++ author` on a
success branch, so every failure branch (no reply and no/empty text,
replied message not found, replied message with empty content, fetch
error) leaves the list unchanged. Second and third conjuncts: each
success branch — a found replied message with non-empty content, or no
reply with a non-empty text argument — is forced to append exactly that
one element (and to report success), so an implementation that never
appended would be refuted. -/
theorem addquote_atomic (reference : Option FetchOutcome)
    (message_content : Option String) (ctxAuthorName : String)
    (quotes : List String) :
    ((addquote reference message_content ctxAuthorName quotes).1 = quotes ∨
      (∃ content author, reference = some (FetchOutcome.found content author) ∧
        content ≠ "" ∧
        (addquote reference message_content ctxAuthorName quotes).1 =
          quotes ++ [content ++ " - " ++ author]) ∨
      (∃ mc, reference = none ∧ message_content = some mc ∧ mc ≠ "" ∧
        (addquote reference message_content ctxAuthorName quotes).1 =
          quotes ++ [mc ++ " - " ++ ctxAuthorName])) ∧
    (∀ content author, reference = some (FetchOutcome.found content author) →
      content ≠ "" →
      (addquote reference message_content ctxAuthorName quotes).1 =
        quotes ++ [content ++ " - " ++ author] ∧
      (addquote reference message_content ctxAuthorName quotes).2 =
        some "Quote successfully added!") ∧
    (∀ mc, reference = none → message_content = some mc → mc ≠ "" →
      (addquote reference message_content ctxAuthorName quotes).1 =
        quotes ++ [mc ++ " - " ++ ctxAuthorName] ∧
      (addquote reference message_content ctxAuthorName quotes).2 =
        some "Quote successfully added!") := by
  refine ⟨?_, ?_, ?_⟩
  · match reference with
    | some (FetchOutcome.found content author) =>
      by_cases hc : content = ""
      · exact Or.inl (by simp [addquote, hc])
      · refine Or.inr (Or.inl ⟨content, author, rfl, hc, ?_⟩)
        simp only [addquote, if_neg hc, if_neg (append_sep_ne_empty content author)]
    | some FetchOutcome.notFound => exact Or.inl rfl
    | some (FetchOutcome.err e) => exact Or.inl rfl
    | none =>
      match message_content with
      | some mc =>
        by_cases hm : mc = ""
        · exact Or.inl (by simp [addquote, hm])
        · refine Or.inr (Or.inr ⟨mc, rfl, rfl, hm, ?_⟩)
          simp only [addquote, if_neg hm, if_neg (append_sep_ne_empty mc ctxAuthorName)]
      | none => exact Or.inl rfl
  · intro content author href hc
    subst href
    constructor <;>
      simp only [addquote, if_neg hc, if_neg (append_sep_ne_empty content author)]
  · intro mc href hmc hm
    subst href
    subst hmc
    constructor <;>
      simp only [addquote, if_neg hm, if_neg (append_sep_ne_empty mc ctxAuthorName)]

/-- Witness for `addquote_atomic`, exercising both success branches
concretely: a reply to a found message with content "X" by "U", and a
plain text argument "Y" by invoking author "A". -/
theorem addquote_atomic_witness :
    (addquote (some (FetchOutcome.found "X" "U")) none "A" []).1 =
      [] ++ ["X" ++ " - " ++ "U"] ∧
    (addquote (some (FetchOutcome.found "X" "U")) none "A" []).2 =
      some "Quote successfully added!" ∧
    (addquote none (some "Y") "A" []).1 = [] ++ ["Y" ++ " - " ++ "A"] ∧
    (addquote none (some "Y") "A" []).2 = some "Quote successfully added!" :=
  ⟨((addquote_atomic (some (FetchOutcome.found "X" "U")) none "A" []).2.1
      "X" "U" rfl (by decide)).1,
   ((addquote_atomic (some (FetchOutcome.found "X" "U")) none "A" []).2.1
      "X" "U" rfl (by decide)).2,
   ((addquote_atomic none (some "Y") "A" []).2.2 "Y" rfl rfl (by decide)).1,
   ((addquote_atomic none (some "Y") "A" []).2.2 "Y" rfl rfl (by decide)).2⟩

/-- Folding the argmax scan from an already-chosen candidate always
ends with a chosen candidate. -/
theorem argmaxFold_some {n : Nat} (v : Fin n → ℝ) (l : List (Fin n)) :
    ∀ j : Fin n, ∃ i, l.foldl (argmaxStep v) (some j) = some i := by
  induction l with
  | nil => exact fun j => ⟨j, rfl⟩
  | cons a t ih =>
    intro j
    rw [List.foldl_cons]
    by_cases hlt : v j < v a
    · have h2 : argmaxStep v (some j) a = some a := by simp [argmaxStep, hlt]
      rw [h2]; exact ih a
    · have h2 : argmaxStep v (some j) a = some j := by simp [argmaxStep, hlt]
      rw [h2]; exact ih j

/-- On a non-empty class axis, `np_argmax` returns an index. -/
theorem np_argmax_some {n : Nat} (hn : 0 < n) (v : Fin n → ℝ) :
    ∃ i, np_argmax v = some i := by
  unfold np_argmax
  rcases hl : List.finRange n with _ | ⟨a, t⟩
  · exfalso
    have hlen : (List.finRange n).length = n := List.length_finRange n
    rw [hl] at hlen
    simp at hlen
    omega
  · rw [List.foldl_cons]
    have h2 : argmaxStep v none a = some a := rfl
    rw [h2]
    exact argmaxFold_some v t a

/-- C1. For every image input that decodes (and resizes) successfully
and every successful forward pass, if the label list length equals the
model's output width (and the model has at least one output class, so
that the argmax exists), `predict_image` returns a label from the label
list together with a confidence in [0,1], and the softmax probability
vector the argmax is taken from sums to exactly 1 (exact real
arithmetic; the float computation matches within rounding tolerance). -/
theorem predict_image_classifies {n : Nat} (env : PipelineEnv n) (labels : List String)
    (image_bytes : List UInt8) (img : PILImage) (predictions : Fin n → ℝ)
    (hdec : env.decode image_bytes = some img)
    (hfwd : env.forward (preprocessSteps env (env.input1, env.input2) img) =
      some predictions)
    (hlen : labels.length = n) (hn : 0 < n) :
    ∃ lab c, predict_image env labels image_bytes = (some lab, some c) ∧
      lab ∈ labels ∧ 0 ≤ c ∧ c ≤ 1 ∧
      ∑ i, tf_softmax predictions i = 1 := by
  have hne : Nonempty (Fin n) := ⟨⟨0, hn⟩⟩
  have hsum_pos : 0 < ∑ j, Real.exp (predictions j) :=
    Finset.sum_pos (fun j _ => Real.exp_pos _) Finset.univ_nonempty
  obtain ⟨i, hi⟩ := np_argmax_some hn (tf_softmax predictions)
  have hidx : i.val < labels.length := by rw [hlen]; exact i.isLt
  have hpre : preprocess_image env image_bytes (env.input1, env.input2) =
      some (preprocessSteps env (env.input1, env.input2) img) := by
    unfold preprocess_image
    rw [hdec]
    rfl
  refine ⟨labels.get ⟨i.val, hidx⟩, tf_softmax predictions i, ?_, ?_, ?_, ?_, ?_⟩
  · simp only [predict_image, hpre, hfwd, hi]
    rw [dif_pos hidx]
  · exact List.get_mem labels i.val hidx
  · exact div_nonneg (Real.exp_pos _).le hsum_pos.le
  · have hrw : tf_softmax predictions i =
        Real.exp (predictions i) / ∑ j, Real.exp (predictions j) := rfl
    rw [hrw, div_le_one hsum_pos]
    exact Finset.single_le_sum (fun j _ => (Real.exp_pos (predictions j)).le)
      (Finset.mem_univ i)
  · simp only [tf_softmax]
    rw [← Finset.sum_div, div_self (ne_of_gt hsum_pos)]

/-- A concrete 3-channel (RGB) decoded image for witnesses. -/
def demoImage : PILImage :=
  { width := 5, height := 4, channels := 3, pixel := fun _ _ _ => 0 }

/-- A concrete pipeline environment with 2 output classes whose decoder
and forward pass always succeed. -/
noncomputable def demoEnv : PipelineEnv 2 :=
  { decode := fun _ => some demoImage,
    resample := fun _ _ _ => fun _ _ _ => 0,
    input1 := 224, input2 := 224,
    forward := fun _ => some (fun _ => 0) }

/-- Witness for `predict_image_classifies` at the concrete environment
`demoEnv`, the empty byte string and the label list ["CPU", "GPU"]. -/
theorem predict_image_classifies_witness :
    ∃ lab c, predict_image demoEnv ["CPU", "GPU"] [] = (some lab, some c) ∧
      lab ∈ ["CPU", "GPU"] ∧ 0 ≤ c ∧ c ≤ 1 ∧
      ∑ i, tf_softmax (fun _ => (0 : ℝ) : Fin 2 → ℝ) i = 1 :=
  predict_image_classifies demoEnv ["CPU", "GPU"] [] demoImage (fun _ => 0)
    rfl rfl rfl (by decide)

/-- C2. Every failure modelled in the pipeline — the decode/resize
exception (`decode` returning `none`) or the inference exception
(`forward` returning `none` on the preprocessed tensor) — makes
`predict_image` return `(None, None)`; since `predict_image` is a total
function into a pair of options, no exception escapes to the caller. -/
theorem predict_image_failure {n : Nat} (env : PipelineEnv n) (labels : List String)
    (image_bytes : List UInt8)
    (h : env.decode image_bytes = none ∨
      ∃ img, env.decode image_bytes = some img ∧
        env.forward (preprocessSteps env (env.input1, env.input2) img) = none) :
    predict_image env labels image_bytes = (none, none) := by
  rcases h with hd | ⟨img, hd, hf⟩
  · have hpre : preprocess_image env image_bytes (env.input1, env.input2) = none := by
      unfold preprocess_image
      rw [hd]
      rfl
    simp only [predict_image, hpre]
  · have hpre : preprocess_image env image_bytes (env.input1, env.input2) =
        some (preprocessSteps env (env.input1, env.input2) img) := by
      unfold preprocess_image
      rw [hd]
      rfl
    simp only [predict_image, hpre, hf]

/-- A concrete environment whose decoder always fails, as
`PIL.Image.open` does on bytes that are not a supported image. -/
def failEnv : PipelineEnv 2 :=
  { decode := fun _ => none,
    resample := fun _ _ _ => fun _ _ _ => 0,
    input1 := 224, input2 := 224,
    forward := fun _ => none }

/-- Witness for `predict_image_failure` at the concrete environment
`failEnv`. -/
theorem predict_image_failure_witness :
    predict_image failEnv ["CPU"] [] = (none, none) :=
  predict_image_failure failEnv ["CPU"] [] (Or.inl rfl)

/-- A concrete 1-channel decoded image, as `PIL.Image.open` produces
for a grayscale (mode L) source image. -/
def grayImage : PILImage :=
  { width := 10, height := 10, channels := 1, pixel := fun _ _ _ => 0 }

/-- A concrete environment whose decoder yields the grayscale image. -/
def grayEnv : PipelineEnv 9 :=
  { decode := fun _ => some grayImage,
    resample := fun _ _ _ => fun _ _ _ => 0,
    input1 := 224, input2 := 224,
    forward := fun _ => none }

/-- C3 counterexample. The claim says `preprocess_image` returns a
tensor of shape `(1, target_height, target_width, 3)` regardless of the
source image's channel count; but for a decoder producing a 1-channel
(grayscale) image — which `PIL.Image.open` does for grayscale sources,
and nothing in `preprocess_image` converts to RGB — the resulting shape
is `(1, 224, 224, 1)`, not `(1, 224, 224, 3)`. -/
theorem preprocess_image_channels_cex :
    (preprocess_image grayEnv [] (224, 224)).map Tensor4.dims =
      some (1, 224, 224, 1) ∧
    (preprocess_image grayEnv [] (224, 224)).map Tensor4.dims ≠
      some (1, 224, 224, 3) := by
  have h1 : (preprocess_image grayEnv [] (224, 224)).map Tensor4.dims =
      some (1, 224, 224, 1) := rfl
  refine ⟨h1, ?_⟩
  rw [h1]
  decide

/-- C3 amended. For every byte string the decoder accepts and every
target size, `preprocess_image` succeeds and returns a tensor of shape
`(1, target_height, target_width, C)` where `C` is the decoded image's
channel count (3 exactly for an RGB source), built by decoding,
stretching to the target size, converting to floats in [0,255],
prepending a batch axis and dividing by 255.0; every entry of the
tensor lies in [0.0, 1.0]. -/
theorem preprocess_image_shape_and_range {n : Nat} (env : PipelineEnv n)
    (image_bytes : List UInt8) (img : PILImage) (tw th : Nat)
    (hdec : env.decode image_bytes = some img) :
    ∃ t, preprocess_image env image_bytes (tw, th) = some t ∧
      t.dims = (1, th, tw, img.channels) ∧
      (img.channels = 3 → t.dims = (1, th, tw, 3)) ∧
      ∀ i y x ch, 0 ≤ t.val i y x ch ∧ t.val i y x ch ≤ 1 := by
  refine ⟨preprocessSteps env (tw, th) img, ?_, rfl, ?_, ?_⟩
  · unfold preprocess_image
    rw [hdec]
    rfl
  · intro h3
    rw [show (preprocessSteps env (tw, th) img).dims =
      (1, th, tw, img.channels) from rfl, h3]
  · intro i y x ch
    have hval : (preprocessSteps env (tw, th) img).val i y x ch =
        ((env.resample img tw th y x ch : Nat) : ℝ) / 255 := rfl
    rw [hval]
    constructor
    · exact div_nonneg (Nat.cast_nonneg _) (by norm_num)
    · rw [div_le_one (by norm_num : (0 : ℝ) < 255)]
      have hb : ((env.resample img tw th y x ch : Fin 256) : Nat) ≤ 255 :=
        Nat.le_of_lt_succ (Fin.is_lt _)
      exact_mod_cast hb

/-- Witness for `preprocess_image_shape_and_range` at the concrete
environment `demoEnv` (RGB image, target size (224, 224)). -/
theorem preprocess_image_shape_and_range_witness :
    ∃ t, preprocess_image demoEnv [] (224, 224) = some t ∧
      t.dims = (1, 224, 224, demoImage.channels) ∧
      (demoImage.channels = 3 → t.dims = (1, 224, 224, 3)) ∧
      ∀ i y x ch, 0 ≤ t.val i y x ch ∧ t.val i y x ch ≤ 1 :=
  preprocess_image_shape_and_range demoEnv [] demoImage 224 224 rfl

end Heteras
